import Mathlib

/-!
Verification of the padel booking application (`src/app.py`) against its
natural-language specification.

The embedding models the single `slots` table as a list of rows plus an
auto-increment counter, and each HTTP handler of `app.py` as a pure function
from (session flags, request body, store) to (JSON response, new store).
Persistence-layer errors are modelled by an oracle passed to every handler.
For the four mutating handlers the oracle is three-valued (`DbOutcome`):
queries and commit succeed; a `run_query` call raises, sending the handler to
its `except` branch; or the queries succeed but the commit raises — a case
`commit_and_close` (app.py lines 100-116) swallows after rolling back, so the
handler continues as if the write had succeeded.  The read-only `/api/slots`
handler performs no commit, so its oracle stays boolean.  Email delivery
failure is modelled per send (`send_email` swallows every exception, so the
oracle only flips the `delivered` flag in the dispatch log).
-/

namespace Padel

/-- A row of the `slots` table (schema created by `init_db`, app.py lines
127-149): auto-assigned integer primary key, three opaque text scheduling
fields, a status text defaulting to `'available'`, and two nullable client
columns. -/
structure Slot where
  id : Int
  date : String
  start_time : String
  end_time : String
  status : String
  client_name : Option String
  client_email : Option String
deriving DecidableEq, Repr

/-- The database state: the rows of the `slots` table in insertion order plus
the auto-increment counter for the next fresh primary key. -/
structure Store where
  nextId : Int
  rows : List Slot
deriving DecidableEq, Repr

/-- A calendar event as produced by `/api/slots` (app.py lines 253-259).
`end_` is the JSON key `end` (a Lean keyword). -/
structure CalendarEvent where
  id : Int
  title : String
  start : String
  end_ : String
  color : String
deriving DecidableEq, Repr

/-- A JSON response of the API: either an object `{"success": ..., "error": ...}`
together with its HTTP status code, or a bare JSON array of events
(`/api/slots` returns arrays in both its success and its error branch). -/
inductive ApiResponse where
  | obj (success : Bool) (error : Option String) (httpStatus : Nat)
  | arr (events : List CalendarEvent)
deriving DecidableEq, Repr

/-- Whether a response is a JSON object carrying the explicit `success` flag. -/
def ApiResponse.hasSuccessFlag : ApiResponse → Bool
  | .obj _ _ _ => true
  | .arr _ => false

/-- Python truthiness of an optional string field from `request.get_json()`:
`None` and the empty string are falsy (`if not date or not start ...`,
`if not name or not email`). -/
def truthy : Option String → Bool
  | none => false
  | some s => !s.isEmpty

/-- `SELECT * FROM slots WHERE id=? ... fetchone()`: the first row with the
given id (app.py lines 363-364). -/
def findRow : List Slot → Int → Option Slot
  | [], _ => none
  | r :: rs, sid => if r.id == sid then some r else findRow rs sid

/-- Effect of `UPDATE slots SET status='booked', client_name=?, client_email=?
WHERE id=?` on one row (app.py lines 374-375).  Note the `WHERE` clause tests
only the id: there is no `status='available'` guard. -/
def bookRow (sid : Int) (name email : String) (r : Slot) : Slot :=
  if r.id == sid then
    { r with status := "booked", client_name := some name, client_email := some email }
  else r

/-- Effect of `UPDATE slots SET status='available', client_name=NULL,
client_email=NULL WHERE id=?` on one row (app.py lines 331-332). -/
def unbookRow (sid : Int) (r : Slot) : Slot :=
  if r.id == sid then
    { r with status := "available", client_name := none, client_email := none }
  else r

/-- One outbound email as recorded by the dispatch layer: recipient, subject,
and the data interpolated into the HTML body (the fixed HTML markup of the
body template, app.py lines 383-401, is elided; it is a function of these
fields). -/
structure Email where
  to_addr : String
  subject : String
  name : String
  email : String
  date : String
  start_time : String
  end_time : String
deriving DecidableEq, Repr

/-- A send attempt in the log.  `delivered = false` means `send_email` caught
an exception internally and printed it (app.py lines 174-177); nothing
propagates to the caller in either case — `send_email` has no error channel. -/
structure SentMail where
  mail : Email
  delivered : Bool
deriving DecidableEq, Repr

/-- `send_email` (app.py lines 162-177): attempts SMTP delivery; every
exception is caught and logged, so the function always returns to its caller
normally.  `deliveryOk` is the oracle for whether SMTP delivery succeeded. -/
def send_email (deliveryOk : Bool) (m : Email) : SentMail :=
  { mail := m, delivered := deliveryOk }

/-- Outcome of the persistence layer during one mutating handler.
`ok`: every `run_query` call and the commit succeed.  `queryRaises`: a
`run_query` call raises, so the handler jumps to its `except` branch
(app.py re-raises from `run_query`, lines 94-97).  `commitFails`: the
queries succeed but `conn.commit()` raises inside `commit_and_close`
(app.py lines 100-116), which swallows the exception, rolls the
transaction back and closes the connection — the handler then proceeds
exactly as on success, with the write undone.  (The rolled-back write
leaves the table, including the auto-increment counter, unchanged, as in
the SQLite backend.) -/
inductive DbOutcome where
  | ok
  | queryRaises
  | commitFails
deriving DecidableEq, Repr

/-- Body of `POST /api/add_slot` as parsed by `request.get_json() or {}`:
each field is `None` when absent. -/
structure AddRequest where
  date : Option String
  start_time : Option String
  end_time : Option String
deriving DecidableEq, Repr

/-- `POST /api/add_slot` (app.py lines 269-296).  Coach-session check, then
required-field validation, then `INSERT INTO slots (date, start_time,
end_time, status) VALUES (?, ?, ?, 'available')` followed by
`commit_and_close`.  If the INSERT raises, the `except` branch answers the
generic 500; if instead the commit raises, `commit_and_close` swallows it
and the handler still answers success, with the INSERT rolled back. -/
def add_slot (db : DbOutcome) (isCoach : Bool) (req : AddRequest) (st : Store) :
    ApiResponse × Store :=
  if !isCoach then (.obj false (some "Unauthorized") 403, st)
  else if !truthy req.date || !truthy req.start_time || !truthy req.end_time then
    (.obj false (some "Missing fields") 400, st)
  else
    match db with
    | .queryRaises => (.obj false (some "DB error") 500, st)
    | .commitFails => (.obj true none 200, st)
    | .ok =>
      let r : Slot :=
        { id := st.nextId, date := req.date.getD "", start_time := req.start_time.getD "",
          end_time := req.end_time.getD "", status := "available",
          client_name := none, client_email := none }
      (.obj true none 200, { nextId := st.nextId + 1, rows := st.rows ++ [r] })

/-- `DELETE /api/delete_slot/<int:slot_id>` (app.py lines 299-318).
Coach-session check, then `DELETE FROM slots WHERE id=?` followed by
`commit_and_close`; reports success whether or not a row matched, and also
when the commit raises (swallowed, DELETE rolled back). -/
def delete_slot (db : DbOutcome) (isCoach : Bool) (sid : Int) (st : Store) :
    ApiResponse × Store :=
  if !isCoach then (.obj false (some "Unauthorized") 403, st)
  else
    match db with
    | .queryRaises => (.obj false (some "DB error") 500, st)
    | .commitFails => (.obj true none 200, st)
    | .ok => (.obj true none 200, { st with rows := st.rows.filter (fun r => r.id != sid) })

/-- `POST /api/unbook_slot/<int:slot_id>` (app.py lines 321-341).
Coach-session check, then the unconditional UPDATE resetting status and
clearing both client columns, followed by `commit_and_close` (a swallowed
commit failure still answers success, with the UPDATE rolled back). -/
def unbook_slot (db : DbOutcome) (isCoach : Bool) (sid : Int) (st : Store) :
    ApiResponse × Store :=
  if !isCoach then (.obj false (some "Unauthorized") 403, st)
  else
    match db with
    | .queryRaises => (.obj false (some "DB error") 500, st)
    | .commitFails => (.obj true none 200, st)
    | .ok => (.obj true none 200, { st with rows := st.rows.map (unbookRow sid) })

/-- Body of `POST /api/book_slot`.  `id = none` models `int(data.get("id"))`
raising (missing or non-integer id); `id = some sid` models a successful
parse. -/
structure BookRequest where
  id : Option Int
  name : Option String
  email : Option String
deriving DecidableEq, Repr

/-- `POST /api/book_slot` (app.py lines 344-414).  Parses the id, validates
name/email, SELECTs the row, returns the benign "Slot unavailable" object
(HTTP 200, no error status) when the row is absent or already booked,
otherwise runs the unguarded UPDATE, calls `commit_and_close`, and then
calls `send_email` twice (client confirmation, coach alert) before
returning success.  If the SELECT or the UPDATE raises, the `except`
branch answers the generic 500; if instead the commit raises,
`commit_and_close` swallows it and the handler continues — the emails are
still sent and success still returned, with the UPDATE rolled back.
Result: (response, new store, email dispatch log). -/
def book_slot (db : DbOutcome) (coachEmail : String) (ok1 ok2 : Bool)
    (req : BookRequest) (st : Store) : ApiResponse × Store × List SentMail :=
  match req.id with
  | none => (.obj false (some "Invalid slot id") 400, st, [])
  | some sid =>
    if !truthy req.name || !truthy req.email then
      (.obj false (some "Missing name/email") 400, st, [])
    else
      let name := req.name.getD ""
      let email := req.email.getD ""
      match db with
      | .queryRaises => (.obj false (some "DB error") 500, st, [])
      | _ =>
        match findRow st.rows sid with
        | none => (.obj false (some "Slot unavailable") 200, st, [])
        | some slot =>
          if slot.status == "booked" then
            (.obj false (some "Slot unavailable") 200, st, [])
          else
            let st' : Store :=
              if db = DbOutcome.commitFails then st
              else { st with rows := st.rows.map (bookRow sid name email) }
            let m1 := send_email ok1
              { to_addr := email, subject := "Padel Training Confirmation",
                name := name, email := email, date := slot.date,
                start_time := slot.start_time, end_time := slot.end_time }
            let m2 := send_email ok2
              { to_addr := coachEmail, subject := "New Padel Booking",
                name := name, email := email, date := slot.date,
                start_time := slot.start_time, end_time := slot.end_time }
            (.obj true none 200, st', [m1, m2])

/-- Lexicographic `ORDER BY date, start_time` comparison (app.py lines
228, 231). -/
def slotLE (a b : Slot) : Bool :=
  match compare a.date b.date with
  | .lt => true
  | .gt => false
  | .eq => (compare a.start_time b.start_time) != .gt

/-- Stable insertion into a list sorted by `slotLE`. -/
def insertSorted (r : Slot) : List Slot → List Slot
  | [] => [r]
  | x :: xs => if slotLE r x then r :: x :: xs else x :: insertSorted r xs

/-- Deterministic stable sort realising `ORDER BY date, start_time` (SQL
leaves the relative order of ties unspecified; the model fixes one). -/
def sortSlots : List Slot → List Slot
  | [] => []
  | x :: xs => insertSorted x (sortSlots xs)

/-- Rendering of one row into a calendar event (app.py lines 245-259): booked
rows are titled `"Booked"`, with ` — client_name` appended only for a coach
session and only when the stored name is truthy; any other status renders as
`"Available"`.  Color depends only on the status. -/
def eventOf (isCoach : Bool) (s : Slot) : CalendarEvent :=
  let title :=
    if s.status == "booked" then
      if isCoach && truthy s.client_name then "Booked — " ++ s.client_name.getD ""
      else "Booked"
    else "Available"
  { id := s.id, title := title,
    start := s.date ++ "T" ++ s.start_time,
    end_ := s.date ++ "T" ++ s.end_time,
    color := if s.status == "available" then "#0091ad" else "#ccc" }

/-- `GET /api/slots` (app.py lines 219-266): optional `only_available` filter,
rows ordered by (date, start_time), each rendered with `eventOf`.  On a
persistence error the handler returns `jsonify([])` — a bare empty array with
HTTP 200 (lines 233-239). -/
def api_slots (dbOk onlyAvailable isCoach : Bool) (st : Store) : ApiResponse :=
  if !dbOk then .arr []
  else
    let rows := if onlyAvailable then st.rows.filter (fun r => r.status == "available") else st.rows
    .arr ((sortSlots rows).map (eventOf isCoach))

end Padel

namespace Padel

/-! ### Sample data used by the concrete witnesses -/

/-- A booked sample row. -/
def rowBooked : Slot :=
  { id := 1, date := "2024-06-01", start_time := "10:00", end_time := "11:00",
    status := "booked", client_name := some "Ana", client_email := some "ana@example.com" }

/-- An available sample row. -/
def rowAvail : Slot :=
  { id := 2, date := "2024-06-01", start_time := "11:00", end_time := "12:00",
    status := "available", client_name := none, client_email := none }

/-- A sample table with one booked and one available slot. -/
def sampleStore : Store := { nextId := 3, rows := [rowBooked, rowAvail] }

/-! ### Basic lemmas about `findRow` -/

theorem findRow_id (rows : List Slot) (sid : Int) (s : Slot)
    (h : findRow rows sid = some s) : s.id = sid := by
  induction rows with
  | nil => simp [findRow] at h
  | cons r rs ih =>
    by_cases hr : (r.id == sid) = true
    · simp [findRow, hr] at h
      subst h
      exact eq_of_beq hr
    · simp only [findRow, hr] at h
      simp only [Bool.false_eq_true, if_false] at h
      exact ih h

theorem findRow_map (f : Slot → Slot) (hf : ∀ r, (f r).id = r.id)
    (rows : List Slot) (sid : Int) :
    findRow (rows.map f) sid = (findRow rows sid).map f := by
  induction rows with
  | nil => rfl
  | cons r rs ih =>
    simp only [List.map_cons, findRow, hf r]
    by_cases hr : (r.id == sid) = true
    · simp [hr]
    · simp only [hr, Bool.false_eq_true, if_false]
      exact ih

theorem bookRow_id (sid : Int) (n e : String) (r : Slot) : (bookRow sid n e r).id = r.id := by
  unfold bookRow; split <;> rfl

theorem unbookRow_id (sid : Int) (r : Slot) : (unbookRow sid r).id = r.id := by
  unfold unbookRow; split <;> rfl

/-! ### C1: booking an absent or already-booked slot is a benign no-op -/

/-- C1: for every store and every bookSlot request whose id parses and whose
name and email are non-empty, if the slot row is absent or its status is
`"booked"`, then `book_slot` returns `success = false` with error
`"Slot unavailable"` and HTTP 200 (a benign result, not an error status), the
stored table is completely unchanged, and no email is dispatched. -/
theorem C1_book_unavailable_benign (ce : String) (ok1 ok2 : Bool)
    (req : BookRequest) (st : Store) (sid : Int)
    (hid : req.id = some sid)
    (hn : truthy req.name = true) (he : truthy req.email = true)
    (hslot : findRow st.rows sid = none ∨
      ∃ s, findRow st.rows sid = some s ∧ s.status = "booked") :
    book_slot .ok ce ok1 ok2 req st =
      (.obj false (some "Slot unavailable") 200, st, []) := by
  unfold book_slot
  rw [hid]
  simp only [hn, he, Bool.not_true, Bool.or_self, Bool.false_eq_true, if_false,
    Bool.not_false, Bool.true_eq_false]
  rcases hslot with h | ⟨s, hs, hb⟩
  · rw [h]
  · rw [hs]
    simp [hb]

/-- Witness for C1 at a concrete input: booking the already-booked sample row
returns the benign unavailable object and leaves the table unchanged. -/
theorem C1_witness :
    book_slot .ok "coach@example.com" true true
      { id := some 1, name := some "Bob", email := some "bob@example.com" } sampleStore =
      (.obj false (some "Slot unavailable") 200, sampleStore, []) :=
  C1_book_unavailable_benign "coach@example.com" true true _ sampleStore 1 rfl
    (by decide) (by decide)
    (Or.inr ⟨rowBooked, by decide, rfl⟩)

/-! ### C5: addSlot failure cases leave the table unchanged -/

/-- C5: `add_slot` without a coach session returns the `Unauthorized` failure
(HTTP 403) and inserts no row; with a coach session but a missing or empty
`date`, `start_time` or `end_time` it returns the invalid-input failure
(`"Missing fields"`, HTTP 400) and inserts no row — in both cases the store is
returned unchanged. -/
theorem C5_add_slot_failures (db : DbOutcome) (req : AddRequest) (st : Store) :
    add_slot db false req st = (.obj false (some "Unauthorized") 403, st) ∧
    (truthy req.date = false ∨ truthy req.start_time = false ∨ truthy req.end_time = false →
      add_slot db true req st = (.obj false (some "Missing fields") 400, st)) := by
  constructor
  · unfold add_slot
    simp
  · intro h
    unfold add_slot
    rcases h with h | h | h <;> simp [h]

/-- A sample add request with all fields present. -/
def addReqFull : AddRequest :=
  { date := some "2024-06-02", start_time := some "09:00", end_time := some "10:00" }

/-- A sample add request with the date missing. -/
def addReqNoDate : AddRequest :=
  { date := none, start_time := some "09:00", end_time := some "10:00" }

/-- Witness for C5: a non-coach insertion attempt and a coach attempt with a
missing date, both on the sample store. -/
theorem C5_witness :
    add_slot .ok false addReqFull sampleStore =
      (.obj false (some "Unauthorized") 403, sampleStore) ∧
    add_slot .ok true addReqNoDate sampleStore =
      (.obj false (some "Missing fields") 400, sampleStore) :=
  ⟨(C5_add_slot_failures .ok _ sampleStore).1,
   (C5_add_slot_failures .ok _ sampleStore).2 (Or.inl (by decide))⟩

/-! ### C7: deleteSlot is idempotent -/

/-- C7: with a coach session, `delete_slot` always answers `success = true`
(HTTP 200), even when no row has the given id; deleting a non-existent id
leaves the table unchanged; and deleting the same id twice produces the same
final state and the same response as deleting it once. -/
theorem C7_delete_idempotent (sid : Int) (st : Store) :
    (delete_slot .ok true sid st).1 = .obj true none 200 ∧
    ((∀ r ∈ st.rows, r.id ≠ sid) → (delete_slot .ok true sid st).2 = st) ∧
    delete_slot .ok true sid (delete_slot .ok true sid st).2 =
      delete_slot .ok true sid st := by
  refine ⟨rfl, ?_, ?_⟩
  · intro h
    unfold delete_slot
    simp only [Bool.not_true, Bool.false_eq_true, if_false]
    have : st.rows.filter (fun r => r.id != sid) = st.rows := by
      apply List.filter_eq_self.mpr
      intro r hr
      simpa using h r hr
    rw [this]
  · unfold delete_slot
    simp only [Bool.not_true, Bool.false_eq_true, if_false]
    rw [List.filter_filter]
    simp

/-- Witness for C7: deleting the non-existent id 99 from the sample store
answers success, leaves the store unchanged, and is idempotent. -/
theorem C7_witness :
    (delete_slot .ok true 99 sampleStore).1 = .obj true none 200 ∧
    (delete_slot .ok true 99 sampleStore).2 = sampleStore ∧
    delete_slot .ok true 99 (delete_slot .ok true 99 sampleStore).2 =
      delete_slot .ok true 99 sampleStore :=
  ⟨(C7_delete_idempotent 99 sampleStore).1,
   (C7_delete_idempotent 99 sampleStore).2.1 (by decide),
   (C7_delete_idempotent 99 sampleStore).2.2⟩

/-! ### C3: booking an available slot persists exactly the submitted client -/

theorem findRow_book_map (st : Store) (sid : Int) (n e : String) (s : Slot)
    (hfind : findRow st.rows sid = some s) :
    findRow (st.rows.map (bookRow sid n e)) sid = some (bookRow sid n e s) := by
  rw [findRow_map (bookRow sid n e) (bookRow_id sid n e), hfind]
  rfl

theorem findRow_unbook_map (st : Store) (sid : Int) (s : Slot)
    (hfind : findRow st.rows sid = some s) :
    findRow (st.rows.map (unbookRow sid)) sid = some (unbookRow sid s) := by
  rw [findRow_map (unbookRow sid) (unbookRow_id sid), hfind]
  rfl

/-- The data interpolated into one of the two confirmation emails built by
`book_slot` from the originally SELECTed row. -/
def bookingMail (addr subj n e : String) (s : Slot) : Email :=
  { to_addr := addr, subject := subj, name := n, email := e,
    date := s.date, start_time := s.start_time, end_time := s.end_time }

theorem book_slot_success (ce : String) (ok1 ok2 : Bool) (st : Store)
    (sid : Int) (s : Slot) (n e : String)
    (hfind : findRow st.rows sid = some s)
    (hs : s.status ≠ "booked")
    (hn : n ≠ "") (he : e ≠ "") :
    book_slot .ok ce ok1 ok2 { id := some sid, name := some n, email := some e } st =
      (.obj true none 200,
       { st with rows := st.rows.map (bookRow sid n e) },
       [send_email ok1 (bookingMail e "Padel Training Confirmation" n e s),
        send_email ok2 (bookingMail ce "New Padel Booking" n e s)]) := by
  have hn' : n.isEmpty = false := by
    cases hne : n.isEmpty
    · rfl
    · exact absurd ((String.isEmpty_iff n).mp hne) hn
  have he' : e.isEmpty = false := by
    cases hee : e.isEmpty
    · rfl
    · exact absurd ((String.isEmpty_iff e).mp hee) he
  have hsb : (s.status == "booked") = false := by
    cases hb : s.status == "booked"
    · rfl
    · exact absurd (eq_of_beq hb) hs
  unfold book_slot
  simp only [truthy, hn', he', Bool.not_false, Bool.or_self, Bool.false_eq_true,
    Bool.not_true, if_false, Option.getD_some, hfind, hsb]
  rfl

/-- C3: if the table holds a row with the requested id whose status is
`"available"`, then `book_slot` with non-empty name and email answers
`success = true` and the stored row with that id has status `"booked"` and
exactly the submitted `client_name`/`client_email`; moreover `unbook_slot`
followed by `book_slot` with different client data succeeds and leaves the
row holding exactly the new client's fields, with no residue of the prior
booking. -/
theorem C3_book_persists_client (ce : String) (ok1 ok2 : Bool) (st : Store)
    (sid : Int) (s : Slot) (n1 e1 n2 e2 : String)
    (hfind : findRow st.rows sid = some s)
    (hn1 : n1 ≠ "") (he1 : e1 ≠ "") (hn2 : n2 ≠ "") (he2 : e2 ≠ "") :
    (s.status = "available" →
      (book_slot .ok ce ok1 ok2 { id := some sid, name := some n1, email := some e1 } st).1 =
        .obj true none 200 ∧
      findRow (book_slot .ok ce ok1 ok2
          { id := some sid, name := some n1, email := some e1 } st).2.1.rows sid =
        some { s with status := "booked", client_name := some n1, client_email := some e1 }) ∧
    ((book_slot .ok ce ok1 ok2 { id := some sid, name := some n2, email := some e2 }
        (unbook_slot .ok true sid st).2).1 = .obj true none 200 ∧
      findRow (book_slot .ok ce ok1 ok2
          { id := some sid, name := some n2, email := some e2 }
          (unbook_slot .ok true sid st).2).2.1.rows sid =
        some { id := s.id, date := s.date, start_time := s.start_time,
               end_time := s.end_time, status := "booked",
               client_name := some n2, client_email := some e2 }) := by
  have hid : s.id = sid := findRow_id st.rows sid s hfind
  constructor
  · intro hav
    have hs : s.status ≠ "booked" := by rw [hav]; intro h; exact absurd h (by decide)
    rw [book_slot_success ce ok1 ok2 st sid s n1 e1 hfind hs hn1 he1]
    refine ⟨rfl, ?_⟩
    rw [findRow_book_map st sid n1 e1 s hfind]
    unfold bookRow
    rw [hid]
    simp
  · have hst1 : (unbook_slot .ok true sid st).2 =
        { st with rows := st.rows.map (unbookRow sid) } := rfl
    have hfind1 : findRow (st.rows.map (unbookRow sid)) sid = some (unbookRow sid s) :=
      findRow_unbook_map st sid s hfind
    have hub : unbookRow sid s =
        { s with status := "available", client_name := none, client_email := none } := by
      unfold unbookRow
      rw [hid]
      simp
    rw [hst1]
    rw [book_slot_success ce ok1 ok2 { st with rows := st.rows.map (unbookRow sid) }
      sid (unbookRow sid s) n2 e2 hfind1
      (by rw [hub]; intro h; exact absurd h (by simp)) hn2 he2]
    refine ⟨rfl, ?_⟩
    have := findRow_book_map { st with rows := st.rows.map (unbookRow sid) }
      sid n2 e2 (unbookRow sid s) hfind1
    rw [this, hub]
    unfold bookRow
    rw [hid]
    simp

/-- Witness for C3: booking the available sample row persists the submitted
client, and unbooking then rebooking with different data leaves no residue. -/
theorem C3_witness :
    ((book_slot .ok "coach@example.com" true true { id := some 2, name := some "Cara", email := some "cara@example.com" } sampleStore).1 = .obj true none 200 ∧
      findRow (book_slot .ok "coach@example.com" true true { id := some 2, name := some "Cara", email := some "cara@example.com" } sampleStore).2.1.rows 2 =
        some { rowAvail with status := "booked", client_name := some "Cara", client_email := some "cara@example.com" }) ∧
    ((book_slot .ok "coach@example.com" true true { id := some 2, name := some "Dan", email := some "dan@example.com" } (unbook_slot .ok true 2 sampleStore).2).1 = .obj true none 200 ∧
      findRow (book_slot .ok "coach@example.com" true true { id := some 2, name := some "Dan", email := some "dan@example.com" } (unbook_slot .ok true 2 sampleStore).2).2.1.rows 2 =
        some { id := rowAvail.id, date := rowAvail.date, start_time := rowAvail.start_time, end_time := rowAvail.end_time, status := "booked", client_name := some "Dan", client_email := some "dan@example.com" }) :=
  ⟨(C3_book_persists_client "coach@example.com" true true sampleStore 2 rowAvail
      "Cara" "cara@example.com" "Dan" "dan@example.com" (by decide)
      (by decide) (by decide) (by decide) (by decide)).1 rfl,
   (C3_book_persists_client "coach@example.com" true true sampleStore 2 rowAvail
      "Cara" "cara@example.com" "Dan" "dan@example.com" (by decide)
      (by decide) (by decide) (by decide) (by decide)).2⟩

/-! ### C4: the booked-iff-client-attached invariant over reachable states -/

/-- Shape of the store `book_slot` returns: either untouched (any failure or
unavailable branch) or the table with the single UPDATE applied. -/
theorem book_slot_store (db : DbOutcome) (ce : String) (ok1 ok2 : Bool)
    (req : BookRequest) (st : Store) :
    (book_slot db ce ok1 ok2 req st).2.1 = st ∨
    ∃ sid, req.id = some sid ∧ (book_slot db ce ok1 ok2 req st).2.1 =
      { st with rows := st.rows.map (bookRow sid (req.name.getD "") (req.email.getD "")) } := by
  unfold book_slot
  cases hi : req.id with
  | none => exact Or.inl rfl
  | some sid =>
    cases hv : (!truthy req.name || !truthy req.email) with
    | true =>
      simp only [hv, if_true]
      exact Or.inl trivial
    | false =>
      simp only [hv, Bool.false_eq_true, if_false]
      cases db with
      | queryRaises => exact Or.inl rfl
      | ok =>
        cases hf : findRow st.rows sid with
        | none => exact Or.inl rfl
        | some slot =>
          cases hb : (slot.status == "booked") with
          | true =>
            simp only [hb, if_true]
            exact Or.inl trivial
          | false =>
            simp only [hb, Bool.false_eq_true, if_false]
            exact Or.inr ⟨sid, rfl, rfl⟩
      | commitFails =>
        cases hf : findRow st.rows sid with
        | none => exact Or.inl rfl
        | some slot =>
          cases hb : (slot.status == "booked") with
          | true =>
            simp only [hb, if_true]
            exact Or.inl trivial
          | false =>
            simp only [hb, Bool.false_eq_true, if_false]
            exact Or.inl rfl

/-- The SELECT statement of a booking session, read atomically from the
shared table. -/
def bookSelect (st : Store) (sid : Int) : Option Slot := findRow st.rows sid

/-- The UPDATE-and-commit statement of a booking session, applied atomically
to the shared table. -/
def bookUpdate (st : Store) (sid : Int) (name email : String) : Store :=
  { st with rows := st.rows.map (bookRow sid name email) }

/-- Whether a session goes on to the UPDATE: the Python check
`if not slot or slot["status"] == "booked"` applied to the row its own SELECT
returned.  A session that proceeds commits the UPDATE and answers
`success = true`. -/
def sessionProceeds : Option Slot → Bool
  | none => false
  | some s => !(s.status == "booked")

/-- Two booking sessions on the same slot id, interleaved as
SELECT₁; SELECT₂; UPDATE₁; UPDATE₂ — an interleaving the statement-level
atomicity of the store permits, since nothing spans the SELECT and the
UPDATE of a session.  Returns (session 1 succeeds, session 2 succeeds,
final table). -/
def twoOverlappedBookings (sid : Int) (n1 e1 n2 e2 : String) (st : Store) :
    Bool × Bool × Store :=
  let sel1 := bookSelect st sid
  let sel2 := bookSelect st sid
  let st1 := if sessionProceeds sel1 then bookUpdate st sid n1 e1 else st
  let st2 := if sessionProceeds sel2 then bookUpdate st1 sid n2 e2 else st1
  (sessionProceeds sel1, sessionProceeds sel2, st2)

/-- A single available slot with id 1. -/
def slotOneAvail : Slot :=
  { id := 1, date := "2024-06-01", start_time := "10:00", end_time := "11:00",
    status := "available", client_name := none, client_email := none }

/-- A one-row table holding a single available slot. -/
def oneAvailStore : Store := { nextId := 2, rows := [slotOneAvail] }

/-- C2 (code bug): on a table holding one available slot, the interleaving
SELECT₁; SELECT₂; UPDATE₁; UPDATE₂ of two `book_slot` sessions lets **both**
sessions pass the status check and commit — both answer `success = true`,
and the second client's UPDATE silently overwrites the first's, so the claim
that at most one of two bookings of the same available slot succeeds fails
on the code.  (The single-session handler is also shown answering success,
tying `sessionProceeds` to the `success = true` response.)  The spec's
intended guard — re-checking status atomically with the update — is absent:
the UPDATE's WHERE clause has no status condition. -/
theorem C2_double_booking_race :
    twoOverlappedBookings 1 "Ana" "ana@example.com" "Bob" "bob@example.com" oneAvailStore =
      (true, true, { nextId := 2, rows := [{ slotOneAvail with status := "booked", client_name := some "Bob", client_email := some "bob@example.com" }] }) ∧
    (book_slot .ok "coach@example.com" true true { id := some 1, name := some "Ana", email := some "ana@example.com" } oneAvailStore).1 =
      .obj true none 200 := by
  constructor
  · rfl
  · rfl

/-! ### C6: notification dispatch and the booking response -/

/-- The externally visible primitive actions a handler performs, in program
order. -/
inductive DbAction where
  | dbSelect
  | dbUpdate
  | dbCommit
  | emailSend (addr : String)
  | httpRespond
deriving DecidableEq, Repr

/-- The sequence of externally visible actions `book_slot` performs, in the
order the source executes them (app.py lines 347-407, with the persistence
layer not raising): on the success path the SELECT, the UPDATE, the commit,
then the two synchronous `send_email` calls, and only then the response. -/
def book_slot_actions (coachEmail : String) (req : BookRequest) (st : Store) :
    List DbAction :=
  match req.id with
  | none => [.httpRespond]
  | some sid =>
    if !truthy req.name || !truthy req.email then [.httpRespond]
    else
      match findRow st.rows sid with
      | none => [.dbSelect, .httpRespond]
      | some slot =>
        if slot.status == "booked" then [.dbSelect, .httpRespond]
        else [.dbSelect, .dbUpdate, .dbCommit,
              .emailSend (req.email.getD ""), .emailSend coachEmail, .httpRespond]

/-- Whether some email send is performed strictly before the HTTP response is
produced.  A dispatch that does not block the caller's response would keep
every send out of the prefix that precedes `httpRespond`. -/
def emailBeforeRespond : List DbAction → Bool
  | [] => false
  | DbAction.httpRespond :: _ => false
  | DbAction.emailSend _ :: _ => true
  | _ :: rest => emailBeforeRespond rest

/-- C6 counterexample: on a successful booking of the available sample row,
both `send_email` calls run to completion strictly before the handler
produces its response — the trace is SELECT, UPDATE, commit, send, send,
respond — so the claim that the two notification sends are dispatched
without blocking the caller's response is false of the code (there is no
background thread in `app.py`; the sends are plain synchronous calls at
lines 404-405, before the `return` at line 407). -/
theorem C6_counterexample :
    book_slot_actions "coach@example.com" { id := some 2, name := some "Ana", email := some "ana@example.com" } sampleStore =
      [.dbSelect, .dbUpdate, .dbCommit, .emailSend "ana@example.com",
       .emailSend "coach@example.com", .httpRespond] ∧
    emailBeforeRespond (book_slot_actions "coach@example.com" { id := some 2, name := some "Ana", email := some "ana@example.com" } sampleStore) = true := by
  constructor
  · rfl
  · rfl

/-- C6 (amended): the two notification sends are performed synchronously
after the commit and before the response — emails are attempted (before
responding) exactly on the successful-booking path — and a delivery failure
of either send alters nothing the caller can see: the response, the
committed table, and even the logged message contents are identical whatever
the two delivery outcomes; only the `delivered` flags in the dispatch log
differ, because `send_email` swallows every exception. -/
theorem C6_sends_isolated (ce : String) (ok1 ok2 : Bool) (req : BookRequest)
    (st : Store) :
    (book_slot .ok ce ok1 ok2 req st).1 = (book_slot .ok ce true true req st).1 ∧
    (book_slot .ok ce ok1 ok2 req st).2.1 = (book_slot .ok ce true true req st).2.1 ∧
    (book_slot .ok ce ok1 ok2 req st).2.2.map SentMail.mail =
      (book_slot .ok ce true true req st).2.2.map SentMail.mail ∧
    (emailBeforeRespond (book_slot_actions ce req st) = true ↔
      (book_slot .ok ce ok1 ok2 req st).1 = .obj true none 200) := by
  unfold book_slot book_slot_actions
  cases hi : req.id with
  | none => simp [emailBeforeRespond]
  | some sid =>
    cases hv : (!truthy req.name || !truthy req.email) with
    | true => simp [hv, emailBeforeRespond]
    | false =>
      simp only [hv, Bool.false_eq_true, if_false]
      cases hf : findRow st.rows sid with
      | none => simp [emailBeforeRespond]
      | some slot =>
        cases hb : (slot.status == "booked") with
        | true => simp [hb, emailBeforeRespond]
        | false => simp [hb, emailBeforeRespond, send_email]

/-! ### C8: coach identity changes only title presentation -/

/-- Erase the client columns of a row.  Two stores related by `scrub` on
their row lists differ only in `client_name`/`client_email` values. -/
def scrub (r : Slot) : Slot := { r with client_name := none, client_email := none }

theorem eventOf_false_scrub (r : Slot) : eventOf false (scrub r) = eventOf false r := rfl

theorem slotLE_scrub (a b : Slot) : slotLE (scrub a) (scrub b) = slotLE a b := rfl

theorem insertSorted_scrub (r : Slot) (l : List Slot) :
    insertSorted (scrub r) (l.map scrub) = (insertSorted r l).map scrub := by
  induction l with
  | nil => rfl
  | cons x xs ih =>
    simp only [List.map_cons, insertSorted, slotLE_scrub]
    rcases Bool.eq_false_or_eq_true (slotLE r x) with h | h <;> simp [h, ih]

theorem sortSlots_scrub (l : List Slot) :
    sortSlots (l.map scrub) = (sortSlots l).map scrub := by
  induction l with
  | nil => rfl
  | cons x xs ih => simp only [List.map_cons, sortSlots, ih, insertSorted_scrub]

theorem filter_avail_scrub (l : List Slot) :
    (l.map scrub).filter (fun r => r.status == "available") =
      (l.filter (fun r => r.status == "available")).map scrub := by
  induction l with
  | nil => rfl
  | cons x xs ih =>
    have hs : (scrub x).status = x.status := rfl
    cases h : (x.status == "available") with
    | true => simp [List.filter_cons, hs, h, ih]
    | false => simp [List.filter_cons, hs, h, ih]

theorem comp_eventOf_false_scrub : eventOf false ∘ scrub = eventOf false :=
  funext eventOf_false_scrub

/-- The non-coach rendering of `/api/slots` depends only on the scrubbed
rows: the client columns never influence it. -/
theorem api_slots_noncoach_scrub (oa : Bool) (st : Store) :
    api_slots true oa false st =
      api_slots true oa false { nextId := 0, rows := st.rows.map scrub } := by
  unfold api_slots
  cases oa with
  | false =>
    simp only [Bool.not_true, Bool.false_eq_true, if_false]
    rw [sortSlots_scrub, List.map_map, comp_eventOf_false_scrub]
  | true =>
    simp only [Bool.not_true, Bool.false_eq_true, if_false, if_true]
    rw [filter_avail_scrub, sortSlots_scrub, List.map_map, comp_eventOf_false_scrub]

/-- C8: a booked row with stored client name `n` (non-empty, as every booked
row written by the code has) renders for a coach session with title
`"Booked — " ++ n` — containing the client's name — and for a non-coach
session with the generic `"Booked"` title; the id, start, end and color of
any row's rendering are identical for both roles; and the full non-coach
`/api/slots` response is identical for any two stores whose rows differ only
in their `client_name`/`client_email` values. -/
theorem C8_coach_title_only (oa : Bool) (st1 st2 : Store) (r s : Slot) (n : String)
    (hb : r.status = "booked") (hn : r.client_name = some n) (hne : n ≠ "")
    (hsc : st1.rows.map scrub = st2.rows.map scrub) :
    eventOf true r = { id := r.id, title := "Booked — " ++ n, start := r.date ++ "T" ++ r.start_time, end_ := r.date ++ "T" ++ r.end_time, color := "#ccc" } ∧
    eventOf false r = { id := r.id, title := "Booked", start := r.date ++ "T" ++ r.start_time, end_ := r.date ++ "T" ++ r.end_time, color := "#ccc" } ∧
    ((eventOf true s).id = (eventOf false s).id ∧
      (eventOf true s).start = (eventOf false s).start ∧
      (eventOf true s).end_ = (eventOf false s).end_ ∧
      (eventOf true s).color = (eventOf false s).color) ∧
    api_slots true oa false st1 = api_slots true oa false st2 := by
  have h1 : (r.status == "booked") = true := by rw [hb]; rfl
  have h2 : (r.status == "available") = false := by rw [hb]; rfl
  have h3 : truthy (some n) = true := by
    show (!n.isEmpty) = true
    cases he : n.isEmpty
    · rfl
    · exact absurd ((String.isEmpty_iff n).mp he) hne
  refine ⟨?_, ?_, ⟨rfl, rfl, rfl, rfl⟩, ?_⟩
  · unfold eventOf
    simp only [hn, h1, h2, h3, if_true, Bool.true_and, Bool.false_eq_true, if_false,
      Option.getD_some]
  · unfold eventOf
    simp only [h1, h2, Bool.false_and, Bool.false_eq_true, if_false, if_true]
  · rw [api_slots_noncoach_scrub oa st1, api_slots_noncoach_scrub oa st2, hsc]

/-- The sample table with the same booked row attributed to a different
client. -/
def sampleStore2 : Store :=
  { nextId := 3, rows := [{ rowBooked with client_name := some "Eve", client_email := some "eve@example.com" }, rowAvail] }

/-- Witness for C8 at concrete data: the booked sample row titled for each
role, and the non-coach responses of two stores differing only in client
data. -/
theorem C8_witness :
    eventOf true rowBooked = { id := 1, title := "Booked — Ana", start := "2024-06-01T10:00", end_ := "2024-06-01T11:00", color := "#ccc" } ∧
    eventOf false rowBooked = { id := 1, title := "Booked", start := "2024-06-01T10:00", end_ := "2024-06-01T11:00", color := "#ccc" } ∧
    api_slots true false false sampleStore = api_slots true false false sampleStore2 :=
  ⟨((C8_coach_title_only false sampleStore sampleStore2 rowBooked rowBooked "Ana"
      rfl rfl (by decide) (by decide)).1),
   ((C8_coach_title_only false sampleStore sampleStore2 rowBooked rowBooked "Ana"
      rfl rfl (by decide) (by decide)).2.1),
   ((C8_coach_title_only false sampleStore sampleStore2 rowBooked rowBooked "Ana"
      rfl rfl (by decide) (by decide)).2.2.2)⟩

/-! ### C9: storage errors and the explicit success flag -/

/-- C9 counterexample, refuting the claim at two concrete points.  First,
`/api/slots` responses are bare JSON arrays: under a persistence error the
handler returns `jsonify([])` — generic, but with no success flag — and even
its success response carries no success flag, so not every API response
carries an explicit success flag.  Second, a persistence error that arrives
at commit time is swallowed by `commit_and_close`, and `add_slot` then
answers `success = true`, HTTP 200, with the INSERT rolled back — not a
generic failure response. -/
theorem C9_counterexample :
    (api_slots false false false { nextId := 1, rows := [] }).hasSuccessFlag = false ∧
    api_slots false false false { nextId := 1, rows := [] } = .arr [] ∧
    (api_slots true false false sampleStore).hasSuccessFlag = false ∧
    add_slot .commitFails true addReqFull sampleStore = (.obj true none 200, sampleStore) :=
  ⟨rfl, rfl, rfl, by decide⟩

theorem add_slot_hasFlag (db : DbOutcome) (c : Bool) (req : AddRequest) (st : Store) :
    (add_slot db c req st).1.hasSuccessFlag = true := by
  unfold add_slot
  split
  · rfl
  split
  · rfl
  cases db <;> rfl

theorem delete_slot_hasFlag (db : DbOutcome) (c : Bool) (sid : Int) (st : Store) :
    (delete_slot db c sid st).1.hasSuccessFlag = true := by
  unfold delete_slot
  split
  · rfl
  cases db <;> rfl

theorem unbook_slot_hasFlag (db : DbOutcome) (c : Bool) (sid : Int) (st : Store) :
    (unbook_slot db c sid st).1.hasSuccessFlag = true := by
  unfold unbook_slot
  split
  · rfl
  cases db <;> rfl

theorem book_slot_hasFlag (db : DbOutcome) (ce : String) (o1 o2 : Bool)
    (req : BookRequest) (st : Store) :
    (book_slot db ce o1 o2 req st).1.hasSuccessFlag = true := by
  unfold book_slot
  cases req.id with
  | none => rfl
  | some sid =>
    cases hv : (!truthy req.name || !truthy req.email) with
    | true => simp only [hv, if_true]; rfl
    | false =>
      simp only [hv, Bool.false_eq_true, if_false]
      cases db with
      | queryRaises => rfl
      | ok =>
        cases hf : findRow st.rows sid with
        | none => rfl
        | some slot =>
          cases hb : (slot.status == "booked") with
          | true => simp only [hb, if_true]; rfl
          | false => simp only [hb, Bool.false_eq_true, if_false]; rfl
      | commitFails =>
        cases hf : findRow st.rows sid with
        | none => rfl
        | some slot =>
          cases hb : (slot.status == "booked") with
          | true => simp only [hb, if_true]; rfl
          | false => simp only [hb, Bool.false_eq_true, if_false]; rfl

/-- C9 (amended): when a query of one of the four mutating operations
raises, the operation returns the generic `success = false`, `"DB error"`,
HTTP 500 object — no internal detail — with the table unchanged; when the
persistence error arrives at commit time instead, `commit_and_close`
swallows it and the operation answers exactly as on success
(`success = true`, HTTP 200) with the write rolled back and the table
unchanged — still no internal detail.  Every response of the four mutating
operations carries the explicit success flag; `listSlots`, however, answers
with bare JSON arrays that carry no success flag, and on a persistence
error it returns the empty array (generic, detail-free, HTTP 200). -/
theorem C9_storage_error_generic (isCoach oa c : Bool) (db : DbOutcome)
    (ce : String) (o1 o2 : Bool) (addReq : AddRequest) (bookReq : BookRequest)
    (sid : Int) (st : Store) :
    (truthy addReq.date = true → truthy addReq.start_time = true →
      truthy addReq.end_time = true →
      add_slot .queryRaises true addReq st = (.obj false (some "DB error") 500, st) ∧
      add_slot .commitFails true addReq st = (.obj true none 200, st)) ∧
    delete_slot .queryRaises true sid st = (.obj false (some "DB error") 500, st) ∧
    delete_slot .commitFails true sid st = (.obj true none 200, st) ∧
    unbook_slot .queryRaises true sid st = (.obj false (some "DB error") 500, st) ∧
    unbook_slot .commitFails true sid st = (.obj true none 200, st) ∧
    (bookReq.id = some sid → truthy bookReq.name = true →
      truthy bookReq.email = true →
      book_slot .queryRaises ce o1 o2 bookReq st = (.obj false (some "DB error") 500, st, []) ∧
      (book_slot .commitFails ce o1 o2 bookReq st).1 = (book_slot .ok ce o1 o2 bookReq st).1 ∧
      (book_slot .commitFails ce o1 o2 bookReq st).2.1 = st) ∧
    api_slots false oa c st = .arr [] ∧
    (add_slot db isCoach addReq st).1.hasSuccessFlag = true ∧
    (delete_slot db isCoach sid st).1.hasSuccessFlag = true ∧
    (unbook_slot db isCoach sid st).1.hasSuccessFlag = true ∧
    (book_slot db ce o1 o2 bookReq st).1.hasSuccessFlag = true := by
  refine ⟨?_, rfl, rfl, rfl, rfl, ?_, rfl, add_slot_hasFlag db isCoach addReq st,
    delete_slot_hasFlag db isCoach sid st, unbook_slot_hasFlag db isCoach sid st,
    book_slot_hasFlag db ce o1 o2 bookReq st⟩
  · intro h1 h2 h3
    constructor
    · unfold add_slot
      simp [h1, h2, h3]
    · unfold add_slot
      simp [h1, h2, h3]
  · intro hid h1 h2
    refine ⟨?_, ?_, ?_⟩
    · unfold book_slot
      rw [hid]
      simp [h1, h2]
    · unfold book_slot
      rw [hid]
      simp only [h1, h2, Bool.not_true, Bool.or_self, Bool.false_eq_true, if_false]
      cases hf : findRow st.rows sid with
      | none => rfl
      | some slot =>
        cases hb : (slot.status == "booked") with
        | true => simp only [hb, if_true]
        | false => simp only [hb, Bool.false_eq_true, if_false]
    · unfold book_slot
      rw [hid]
      simp only [h1, h2, Bool.not_true, Bool.or_self, Bool.false_eq_true, if_false]
      cases hf : findRow st.rows sid with
      | none => rfl
      | some slot =>
        cases hb : (slot.status == "booked") with
        | true => simp only [hb, if_true]
        | false =>
          simp only [hb, Bool.false_eq_true, if_false]
          exact if_pos trivial

/-- Witness for C9's amended statement at concrete inputs: a raising query
and a swallowed commit failure for both `add_slot` and `book_slot`, and a
raising query for `delete_slot`. -/
theorem C9_witness :
    (add_slot .queryRaises true addReqFull sampleStore =
        (.obj false (some "DB error") 500, sampleStore) ∧
      add_slot .commitFails true addReqFull sampleStore = (.obj true none 200, sampleStore)) ∧
    (book_slot .queryRaises "coach@example.com" true true { id := some 2, name := some "Ana", email := some "ana@example.com" } sampleStore =
        (.obj false (some "DB error") 500, sampleStore, []) ∧
      (book_slot .commitFails "coach@example.com" true true { id := some 2, name := some "Ana", email := some "ana@example.com" } sampleStore).1 =
        (book_slot .ok "coach@example.com" true true { id := some 2, name := some "Ana", email := some "ana@example.com" } sampleStore).1 ∧
      (book_slot .commitFails "coach@example.com" true true { id := some 2, name := some "Ana", email := some "ana@example.com" } sampleStore).2.1 = sampleStore) ∧
    delete_slot .queryRaises true 2 sampleStore = (.obj false (some "DB error") 500, sampleStore) :=
  ⟨(C9_storage_error_generic true false false .ok "coach@example.com" true true
      addReqFull { id := some 2, name := some "Ana", email := some "ana@example.com" } 2 sampleStore).1
      (by decide) (by decide) (by decide),
   (C9_storage_error_generic true false false .ok "coach@example.com" true true
      addReqFull { id := some 2, name := some "Ana", email := some "ana@example.com" } 2 sampleStore).2.2.2.2.2.1
      rfl (by decide) (by decide),
   (C9_storage_error_generic true false false .ok "coach@example.com" true true
      addReqFull { id := some 2, name := some "Ana", email := some "ana@example.com" } 2 sampleStore).2.1⟩

/-! ### C10: frame of book/unbook, immutability of row ids -/

theorem unbookRow_frame (sid : Int) (r : Slot) :
    (unbookRow sid r).id = r.id ∧ (unbookRow sid r).date = r.date ∧
    (unbookRow sid r).start_time = r.start_time ∧
    (unbookRow sid r).end_time = r.end_time := by
  unfold unbookRow
  split <;> exact ⟨rfl, rfl, rfl, rfl⟩

theorem bookRow_frame (sid : Int) (n e : String) (r : Slot) :
    (bookRow sid n e r).id = r.id ∧ (bookRow sid n e r).date = r.date ∧
    (bookRow sid n e r).start_time = r.start_time ∧
    (bookRow sid n e r).end_time = r.end_time := by
  unfold bookRow
  split <;> exact ⟨rfl, rfl, rfl, rfl⟩

/-- C10: `unbook_slot` rewrites the table by a per-row function that touches
only `status`/`client_name`/`client_email`, keeps every row's id, date and
times, and is the identity on every row whose id differs from the target;
`book_slot` either leaves the table untouched or rewrites it by the analogous
per-row booking function, with the same frame; `add_slot` at most appends a
fresh row after the existing ones, and `delete_slot` at most filters rows
out — so no operation ever modifies an existing row's id. -/
theorem C10_book_unbook_frame (db : DbOutcome) (ce : String) (o1 o2 : Bool)
    (req : BookRequest) (addReq : AddRequest) (c : Bool) (sid : Int)
    (n e : String) (st : Store) (r : Slot) :
    (unbook_slot .ok true sid st).2.rows = st.rows.map (unbookRow sid) ∧
    ((unbookRow sid r).id = r.id ∧ (unbookRow sid r).date = r.date ∧
      (unbookRow sid r).start_time = r.start_time ∧
      (unbookRow sid r).end_time = r.end_time) ∧
    (r.id ≠ sid → unbookRow sid r = r) ∧
    ((book_slot db ce o1 o2 req st).2.1 = st ∨
      ∃ sid', req.id = some sid' ∧ (book_slot db ce o1 o2 req st).2.1 =
        { st with rows := st.rows.map (bookRow sid' (req.name.getD "") (req.email.getD "")) }) ∧
    ((bookRow sid n e r).id = r.id ∧ (bookRow sid n e r).date = r.date ∧
      (bookRow sid n e r).start_time = r.start_time ∧
      (bookRow sid n e r).end_time = r.end_time) ∧
    (r.id ≠ sid → bookRow sid n e r = r) ∧
    ((add_slot db c addReq st).2.rows = st.rows ∨
      ∃ nr, (add_slot db c addReq st).2.rows = st.rows ++ [nr]) ∧
    ((delete_slot db c sid st).2.rows = st.rows ∨
      (delete_slot db c sid st).2.rows = st.rows.filter (fun x => x.id != sid)) := by
  refine ⟨rfl, unbookRow_frame sid r, ?_, book_slot_store db ce o1 o2 req st,
    bookRow_frame sid n e r, ?_, ?_, ?_⟩
  · intro h
    have hb : (r.id == sid) = false := by
      cases hx : (r.id == sid)
      · rfl
      · exact absurd (eq_of_beq hx) h
    unfold unbookRow
    rw [hb]
    rfl
  · intro h
    have hb : (r.id == sid) = false := by
      cases hx : (r.id == sid)
      · rfl
      · exact absurd (eq_of_beq hx) h
    unfold bookRow
    rw [hb]
    rfl
  · unfold add_slot
    split
    · exact Or.inl rfl
    split
    · exact Or.inl rfl
    cases db with
    | queryRaises => exact Or.inl rfl
    | commitFails => exact Or.inl rfl
    | ok => exact Or.inr ⟨_, rfl⟩
  · unfold delete_slot
    split
    · exact Or.inl rfl
    cases db with
    | queryRaises => exact Or.inl rfl
    | commitFails => exact Or.inl rfl
    | ok => exact Or.inr rfl

/-- Witness for C10 at concrete inputs: unbooking id 2 maps the sample rows
pointwise, and both per-row updaters leave the other row (id 1) untouched. -/
theorem C10_witness :
    (unbook_slot .ok true 2 sampleStore).2.rows = sampleStore.rows.map (unbookRow 2) ∧
    unbookRow 2 rowBooked = rowBooked ∧
    bookRow 2 "Cara" "cara@example.com" rowBooked = rowBooked :=
  ⟨(C10_book_unbook_frame .ok "coach@example.com" true true { id := some 2, name := some "Cara", email := some "cara@example.com" } addReqFull true 2 "Cara" "cara@example.com" sampleStore rowBooked).1,
   (C10_book_unbook_frame .ok "coach@example.com" true true { id := some 2, name := some "Cara", email := some "cara@example.com" } addReqFull true 2 "Cara" "cara@example.com" sampleStore rowBooked).2.2.1 (by decide),
   (C10_book_unbook_frame .ok "coach@example.com" true true { id := some 2, name := some "Cara", email := some "cara@example.com" } addReqFull true 2 "Cara" "cara@example.com" sampleStore rowBooked).2.2.2.2.2.1 (by decide)⟩

/-- Witness for C6 at a concrete input: with both deliveries failing, the
response and committed table of a successful booking equal those with both
deliveries succeeding, and the sends precede the response exactly because the
booking succeeded. -/
theorem C6_witness :
    (book_slot .ok "coach@example.com" false false { id := some 2, name := some "Ana", email := some "ana@example.com" } sampleStore).1 =
      (book_slot .ok "coach@example.com" true true { id := some 2, name := some "Ana", email := some "ana@example.com" } sampleStore).1 ∧
    (book_slot .ok "coach@example.com" false false { id := some 2, name := some "Ana", email := some "ana@example.com" } sampleStore).2.1 =
      (book_slot .ok "coach@example.com" true true { id := some 2, name := some "Ana", email := some "ana@example.com" } sampleStore).2.1 ∧
    (book_slot .ok "coach@example.com" false false { id := some 2, name := some "Ana", email := some "ana@example.com" } sampleStore).2.2.map SentMail.mail =
      (book_slot .ok "coach@example.com" true true { id := some 2, name := some "Ana", email := some "ana@example.com" } sampleStore).2.2.map SentMail.mail ∧
    (emailBeforeRespond (book_slot_actions "coach@example.com" { id := some 2, name := some "Ana", email := some "ana@example.com" } sampleStore) = true ↔
      (book_slot .ok "coach@example.com" false false { id := some 2, name := some "Ana", email := some "ana@example.com" } sampleStore).1 = .obj true none 200) :=
  C6_sends_isolated "coach@example.com" false false
    { id := some 2, name := some "Ana", email := some "ana@example.com" } sampleStore
